import Mathlib

/-!
Verification of the `ai-lazy-pr` credential-store design against its
natural-language specification.

The repository's only source file, `src/lazycodr/cli/config.py`, is the CLI
shell: module-level state (`CREDENTIALS_FILE`, `CREDENTIALS_EXIST`,
`PSWD_PROMPT`), the helper `get_exisiting_cm`, and the three commands
`credentials`, `update_password` and `delete_credentials`.  The cryptographic
core (`CredentialsManager` in `lazycodr.utils.credentials`) is not part of the
sources; where a claim depends on it, the core is modelled from the
specification (such definitions carry a `Modelled from the spec:` doc comment).

The shell is embedded as pure functions: the nondeterministic inputs of a run
(results of `CredentialsManager.load`, passwords typed at each prompt,
confirmation answers) are explicit arguments, and the observable side effects
(console prints, prompts, file loads, `os.unlink`, `save`) are collected in an
effect trace.
-/

namespace LazyPr

/-! ## Core data model (Modelled from the spec) -/

/-- Modelled from the spec: KDF parameters stored verbatim in the file —
algorithm identifier and work-factor cost parameters (§3 KdfParameters). -/
structure KdfParams where
  algoId : Nat
  timeCost : Nat
  memCost : Nat
deriving DecidableEq, Repr

/-- Salt bytes, generated fresh on every password set/change (§3). -/
abbrev Salt := List Nat

/-- Nonce bytes, generated fresh on every save (§3). -/
abbrev Nonce := List Nat

/-- Plaintext byte payloads handled by the codec and the cipher. -/
abbrev Bytes := List Nat

/-- Modelled from the spec: the derived symmetric key.  §4.2 requires
`derive` to be a deterministic function of password, salt and params only,
and an ideal password-hashing KDF is collision-free across distinct
passwords for a fixed salt; both are captured by making the key the triple
itself. -/
structure Key where
  password : String
  salt : Salt
  params : KdfParams
deriving DecidableEq, Repr

/-- Modelled from the spec: `derive(password, salt, params) -> key` (§4.2),
deterministic in its three arguments and nothing else. -/
def derive (password : String) (salt : Salt) (params : KdfParams) : Key :=
  ⟨password, salt, params⟩

/-- Modelled from the spec: a ciphertext-plus-authentication-tag bundle
produced by `seal` (§4.3).  The bundle is opaque; opening it under any key
other than the sealing key (or a different nonce, i.e. a tampered bundle)
deterministically fails authentication. -/
structure Sealed where
  sealKey : Key
  sealNonce : Nonce
  payload : Bytes
deriving DecidableEq, Repr

namespace Cipher

/-- Modelled from the spec: `seal(key, nonce, plaintext) -> ciphertext+tag`
(§4.3, AEAD). -/
def sealData (k : Key) (n : Nonce) (pt : Bytes) : Sealed := ⟨k, n, pt⟩

/-- Modelled from the spec: `open(key, nonce, ciphertext+tag) -> plaintext |
AuthenticationFailure` (§4.3): authentication succeeds exactly when the key
and nonce are the ones the bundle was sealed under; `none` is the
`AuthenticationFailure` outcome. -/
def openSealed (k : Key) (n : Nonce) (s : Sealed) : Option Bytes :=
  if s.sealKey = k ∧ s.sealNonce = n then some s.payload else none

end Cipher

/-! ## Codec (Modelled from the spec, §4.1) -/

/-- Length-prefixed encoding of one string as bytes (codepoints). -/
def encodeString (s : String) : Bytes :=
  s.toList.length :: s.toList.map Char.toNat

/-- Modelled from the spec: `encode(mapping) -> bytes` (§4.1) — a
count-prefixed sequence of length-prefixed key/value strings. -/
def encode (m : List (String × String)) : Bytes :=
  m.length :: (m.map fun p => encodeString p.1 ++ encodeString p.2).flatten

/-- Parses `n` codepoints from the byte stream; fails on truncation or an
invalid codepoint. -/
def decodeChars : Nat → Bytes → Option (List Char × Bytes)
  | 0, bs => some ([], bs)
  | _ + 1, [] => none
  | n + 1, b :: bs =>
    if Nat.isValidChar b then
      match decodeChars n bs with
      | some (cs, rest) => some (Char.ofNat b :: cs, rest)
      | none => none
    else none

/-- Parses one length-prefixed string from the byte stream. -/
def decodeEntry : Bytes → Option (String × Bytes)
  | [] => none
  | n :: rest =>
    match decodeChars n rest with
    | some (cs, r) => some (String.mk cs, r)
    | none => none

/-- Parses exactly `n` key/value pairs, requiring the stream to be exhausted
at the end (trailing bytes are malformed). -/
def decodePairs : Nat → Bytes → Option (List (String × String))
  | 0, [] => some []
  | 0, _ :: _ => none
  | n + 1, bs =>
    match decodeEntry bs with
    | none => none
    | some (k, r1) =>
      match decodeEntry r1 with
      | none => none
      | some (v, r2) =>
        match decodePairs n r2 with
        | some ps => some ((k, v) :: ps)
        | none => none

/-- Modelled from the spec: `decode(bytes) -> mapping | MalformedPayload`
(§4.1); `none` is the `MalformedPayload` outcome. -/
def decode : Bytes → Option (List (String × String))
  | [] => none
  | n :: rest => decodePairs n rest

/-! ## Envelope and file format (Modelled from the spec, §4.4, §6) -/

/-- Format version written by this implementation. -/
def currentVersion : Nat := 1

/-- Modelled from the spec: the on-disk envelope
`[version][kdf params][salt][nonce][ciphertext||tag]` (§3, §6). -/
structure Envelope where
  version : Nat
  params : KdfParams
  salt : Salt
  nonce : Nonce
  sealedData : Sealed
deriving DecidableEq, Repr

/-- Error kinds surfaced by `load` (§7): `incorrectPassword` for
authentication failure, `corrupted` for malformed layout or payload. -/
inductive LoadError
  | incorrectPassword
  | corrupted
deriving DecidableEq, Repr

/-- Content found at the credentials path: a structurally intact envelope, or
bytes that do not parse as the expected layout (§4.4 `MalformedFile`). -/
inductive FileData
  | stored (e : Envelope)
  | garbage
deriving DecidableEq, Repr

namespace FileFormat

/-- Modelled from the spec: `read(path) -> envelope | MalformedFile` (§4.4);
unknown versions and unparseable bytes are both `MalformedFile`, surfaced as
the `corrupted` error kind. -/
def readFile : FileData → Except LoadError Envelope
  | .garbage => .error .corrupted
  | .stored e =>
    if e.version = currentVersion then .ok e else .error .corrupted

end FileFormat

/-! ## CredentialsManager (Modelled from the spec, §4.5) -/

/-- Modelled from the spec: the unlocked manager — the decrypted mapping plus
the salt/params that produced its current key, and the derived key itself
(§3 CredentialsManager). -/
structure CredentialsManager where
  mapping : List (String × String)
  salt : Salt
  params : KdfParams
  key : Key
deriving DecidableEq, Repr

namespace CredentialsManager

/-- Modelled from the spec: `create(password)` — fresh salt and params
(passed explicitly, standing for the random source), derived key, empty
mapping (§4.5). -/
def create (password : String) (freshSalt : Salt) (freshParams : KdfParams) :
    CredentialsManager :=
  ⟨[], freshSalt, freshParams, derive password freshSalt freshParams⟩

/-- Modelled from the spec: `save(path)` — a fresh nonce, the manager's
current salt/params reused, the encoded mapping sealed under the manager's
key, assembled into the envelope handed to the file format (§4.5). -/
def save (cm : CredentialsManager) (freshNonce : Nonce) : Envelope :=
  ⟨currentVersion, cm.params, cm.salt, freshNonce,
    Cipher.sealData cm.key freshNonce (encode cm.mapping)⟩

/-- Modelled from the spec: `load(path, password)` (§4.5) — read the file
format; derive the key from the file's stored salt/params and the given
password; open the sealed data, mapping `AuthenticationFailure` to
`incorrectPassword`; decode the payload, mapping `MalformedPayload` to
`corrupted`. -/
def load (fd : FileData) (password : String) :
    Except LoadError CredentialsManager :=
  match FileFormat.readFile fd with
  | .error e => .error e
  | .ok env =>
    match Cipher.openSealed (derive password env.salt env.params) env.nonce env.sealedData with
    | none => .error .incorrectPassword
    | some bytes =>
      match decode bytes with
      | none => .error .corrupted
      | some m => .ok ⟨m, env.salt, env.params, derive password env.salt env.params⟩

/-- Modelled from the spec: `update_password(old, new)` (§4.5) — re-derive
from the currently-held salt/params and `old`; a mismatch with the unlocking
key is a contract error (`none`); otherwise rebind to a brand-new salt and
params (passed explicitly, standing for the random source) and the key
derived from `new`, keeping the mapping. -/
def updatePassword (cm : CredentialsManager) (old new : String)
    (freshSalt : Salt) (freshParams : KdfParams) :
    Option CredentialsManager :=
  if derive old cm.salt cm.params = cm.key then
    some { cm with
      salt := freshSalt
      params := freshParams
      key := derive new freshSalt freshParams }
  else none

end CredentialsManager

/-! ## Atomic save discipline (Modelled from the spec, §5)

`save` must be "scoped acquisition of a temporary file, full write, flush,
then atomic rename over the target path".  The filesystem is modelled as the
content at the target path plus the state of the temporary file, and a save
as a sequence of atomic steps; an interruption is an arbitrary prefix of the
sequence. -/

/-- State of the temporary file during a save: absent, just created (empty),
holding a partial write, holding the full envelope, or flushed. -/
inductive TempState
  | noTemp
  | openedTemp
  | halfWritten (e : Envelope)
  | fullyWritten (e : Envelope)
  | flushedTemp (e : Envelope)
deriving DecidableEq, Repr

/-- Filesystem as save observes it: the content at the target path and the
temporary file's state. -/
structure Fs where
  target : Option FileData
  temp : TempState
deriving DecidableEq, Repr

/-- Atomic steps of the save discipline (§5): open the temp file, two write
chunks (so that a partial write is an observable intermediate state), flush,
atomic rename over the target. -/
inductive SaveStep
  | openTemp
  | writeFirstHalf (e : Envelope)
  | writeSecondHalf
  | flushTemp
  | renameTemp
deriving DecidableEq, Repr

/-- What the temp file would contain if it were renamed into place now: an
empty or half-written temp file parses as garbage, a fully written one as
the stored envelope. -/
def tempContent : TempState → Option FileData
  | .noTemp => none
  | .openedTemp => some .garbage
  | .halfWritten _ => some .garbage
  | .fullyWritten e => some (.stored e)
  | .flushedTemp e => some (.stored e)

/-- Modelled from the spec: effect of one atomic step.  Writes and flush
touch only the temp file; only `renameTemp` changes the target, and it does
so atomically, installing the temp file's entire current content. -/
def applySaveStep (fs : Fs) : SaveStep → Fs
  | .openTemp => { fs with temp := .openedTemp }
  | .writeFirstHalf e =>
    { fs with temp := match fs.temp with | .openedTemp => .halfWritten e | t => t }
  | .writeSecondHalf =>
    { fs with temp := match fs.temp with | .halfWritten e => .fullyWritten e | t => t }
  | .flushTemp =>
    { fs with temp := match fs.temp with | .fullyWritten e => .flushedTemp e | t => t }
  | .renameTemp =>
    match tempContent fs.temp with
    | some d => ⟨some d, .noTemp⟩
    | none => { fs with temp := .noTemp }

/-- Modelled from the spec: the step sequence `save(path)` executes — temp
file, full write, flush, then atomic rename (§5). -/
def saveSteps (e : Envelope) : List SaveStep :=
  [.openTemp, .writeFirstHalf e, .writeSecondHalf, .flushTemp, .renameTemp]

/-- Runs a sequence of save steps on a filesystem state. -/
def runSteps (fs : Fs) (steps : List SaveStep) : Fs :=
  steps.foldl applySaveStep fs

/-! ## CLI shell (embedded from `src/lazycodr/cli/config.py`)

The shell is embedded as pure functions.  Nondeterministic inputs of a run
(the result of each `CredentialsManager.load` call, the password typed at
each prompt, confirmation answers, the new password the re-enter-until-match
loop eventually accepts) are explicit arguments; observable side effects are
collected in an effect trace. -/

/-- Exceptions, as the shell's `try/except` clauses distinguish them:
`TypeError` and `ValueError` (the corruption branch), `IncorrectPasswordError`
(whose `message` attribute is printed), and any other exception (e.g. a
missing-file error), which no handler catches. -/
inductive PyExc
  | typeError (msg : String)
  | valueError (msg : String)
  | incorrectPasswordError (msg : String)
  | otherError (msg : String)
deriving DecidableEq, Repr

/-- Observable effects of a shell run: console prints, the current-password
prompts of the retry loops, other input prompts, `typer.confirm` questions,
`CredentialsManager.load` invocations, `os.unlink` of the credentials file,
and `cm.save` invocations. -/
inductive Eff
  | printMsg (text : String)
  | promptPassword (text : String)
  | promptInput (text : String)
  | confirmAsk (text : String)
  | loadFile
  | unlinkFile
  | saveFile
deriving DecidableEq, Repr

/-- Effects of the `except (TypeError, ValueError)` branch of
`get_exisiting_cm` (config.py:34-50): corruption notice, the exception text,
`os.unlink`, and the recreation instructions — in that order, with no
confirmation question anywhere. -/
def corruptionEffects (msg : String) : List Eff :=
  [.loadFile,
   .printMsg "Oh no! The credentials file is corrupted.",
   .printMsg ("Error: " ++ msg),
   .unlinkFile,
   .printMsg "For the security of your credentials, it has now been deleted",
   .printMsg "Please recreate your credentials with the following command",
   .printMsg "  lazycodr config credentials"]

/-- Embeds `get_exisiting_cm` (config.py:31-54) as a function of the result
of the `CredentialsManager.load` call it makes: on success it returns the
manager; `TypeError`/`ValueError` run the corruption branch and return
`None`; `IncorrectPasswordError` prints its message and returns `None`; any
other exception propagates. -/
def getExisitingCm (loadResult : Except PyExc CredentialsManager) :
    Except PyExc (Option CredentialsManager) × List Eff :=
  match loadResult with
  | .ok cm => (.ok (some cm), [.loadFile])
  | .error (.typeError msg) => (.ok none, corruptionEffects msg)
  | .error (.valueError msg) => (.ok none, corruptionEffects msg)
  | .error (.incorrectPasswordError msg) => (.ok none, [.loadFile, .printMsg msg])
  | .error (.otherError msg) => (.error (.otherError msg), [.loadFile])

/-- Python dict assignment `m[k] = v` on the manager's mapping: overwrite the
existing entry for `k`, else append a new one. -/
def setCred (m : List (String × String)) (k v : String) :
    List (String × String) :=
  if m.any fun p => p.1 = k then
    m.map fun p => if p.1 = k then (k, v) else p
  else m ++ [(k, v)]

/-- How a command run ended: returned normally, `typer.Abort` raised, or an
exception propagated out. -/
inductive CmdExit
  | normal
  | aborted
  | raised (e : PyExc)
deriving DecidableEq, Repr

/-- Result of a command run: how it exited, its effect trace, and the manager
passed to `cm.save` when a save happened. -/
structure CmdResult where
  exitKind : CmdExit
  effects : List Eff
  saved : Option CredentialsManager
deriving DecidableEq, Repr

/-- The two credential assignments of the `credentials` command
(config.py:70-71). -/
def storeCredentials (cm : CredentialsManager) (oai gh : String) :
    CredentialsManager :=
  { cm with mapping := setCred (setCred cm.mapping "openai_api_key" oai) "github_token" gh }

/-- Embeds the `credentials` command (config.py:57-77).  `credentialsExist`
is the import-time `CREDENTIALS_EXIST`; `loadResult` is what
`CredentialsManager.load` returns inside `get_exisiting_cm` when that branch
runs; `password`/`freshSalt`/`freshParams` feed the fresh-manager branch. -/
def credentialsCmd (credentialsExist : Bool)
    (loadResult : Except PyExc CredentialsManager)
    (openaiApiKey githubToken password : String)
    (freshSalt : Salt) (freshParams : KdfParams) : CmdResult :=
  if credentialsExist then
    match getExisitingCm loadResult with
    | (.error e, effs) => ⟨.raised e, effs, none⟩
    | (.ok none, effs) => ⟨.normal, effs, none⟩
    | (.ok (some cm), effs) =>
      let cm2 := storeCredentials cm openaiApiKey githubToken
      ⟨.normal, effs ++ [.saveFile, .printMsg "Credentials securely saved"], some cm2⟩
  else
    let cm2 := storeCredentials
      (CredentialsManager.create password freshSalt freshParams)
      openaiApiKey githubToken
    ⟨.normal, [.saveFile, .printMsg "Credentials securely saved"], some cm2⟩

/-- Prompt text of attempt `i` of a retry loop (config.py:86-90, 141-145):
the base text for the first attempt, then an attempt counter. -/
def promptText (base : String) : Nat → String
  | 0 => base
  | i + 1 => base ++ " (Attempt " ++ toString (i + 2) ++ " / 3)"

/-- Outcome of the three-attempt password retry loop: a validated manager
together with the password string the user entered on the successful
attempt, or exhaustion of the attempts (`for`'s `else` clause). -/
inductive LoopOutcome
  | success (cm : CredentialsManager) (enteredPassword : String)
  | tooMany
deriving DecidableEq, Repr

/-- One iteration of `for i in range(3)` (config.py:85-97 and 141-152): the
attempt prompts, runs `get_exisiting_cm` on that attempt's load result,
breaks with the manager and the entered password on success, propagates an
uncaught exception, and otherwise continues with `onFail` (the rest of the
loop, or the `else` clause). -/
def retryAttempt (attemptLoad : Nat → Except PyExc CredentialsManager)
    (entered : Nat → String) (base : String) (i : Nat)
    (onFail : Except PyExc LoopOutcome × List Eff) :
    Except PyExc LoopOutcome × List Eff :=
  match (getExisitingCm (attemptLoad i)).1 with
  | .error e =>
    (.error e, Eff.promptPassword (promptText base i) :: (getExisitingCm (attemptLoad i)).2)
  | .ok (some cm) =>
    (.ok (.success cm (entered i)),
      Eff.promptPassword (promptText base i) :: (getExisitingCm (attemptLoad i)).2)
  | .ok none =>
    (onFail.1,
      (Eff.promptPassword (promptText base i) :: (getExisitingCm (attemptLoad i)).2)
        ++ onFail.2)

/-- The three-attempt retry loop `for i in range(3): ... else: ...` of
`update_password` and `delete_credentials`, unrolled at its literal bound:
attempts 0, 1 and 2, falling through to the `else` clause (too-many message,
abort) when every attempt fails validation. -/
def passwordRetryLoop (attemptLoad : Nat → Except PyExc CredentialsManager)
    (entered : Nat → String) (base : String) :
    Except PyExc LoopOutcome × List Eff :=
  retryAttempt attemptLoad entered base 0
    (retryAttempt attemptLoad entered base 1
      (retryAttempt attemptLoad entered base 2
        (.ok .tooMany, [.printMsg "Too many incorrect attempts."])))

/-- Effects of the new-password confirmation loop (config.py:103-111),
summarized by the accepting iteration: the loop repeats these two prompts
until the two entries match, and its sole data outcome is the accepted
string, passed to the command as `newPassword`. -/
def newPasswordPromptEffs : List Eff :=
  [.promptInput "Enter new password", .promptInput "Re-enter new password"]

/-- Embeds the `update_password` command (config.py:80-120).
`credentialsExist` is the import-time `CREDENTIALS_EXIST`; `attemptLoad i`
is the load result for the password entered at attempt `i` (`entered i`);
`createConfirm` answers the create-one confirmation of the no-file branch;
`newPassword` is the string the confirmation loop accepts; `_fileExistsNow`
is the file's existence at command time, which the code never consults.
After the branches, `curr_password != ''` decides between
`cm.update_password` on the loaded manager and a fresh
`CredentialsManager(new_password)`. -/
def updatePasswordCmd (credentialsExist : Bool)
    (attemptLoad : Nat → Except PyExc CredentialsManager)
    (entered : Nat → String)
    (createConfirm : Bool)
    (newPassword : String)
    (freshSalt : Salt) (freshParams : KdfParams)
    (_fileExistsNow : Bool) : CmdResult :=
  if credentialsExist then
    match passwordRetryLoop attemptLoad entered "Enter current password" with
    | (.error e, effs) => ⟨.raised e, effs, none⟩
    | (.ok .tooMany, effs) => ⟨.aborted, effs, none⟩
    | (.ok (.success cm pw), effs) =>
      let effs2 := effs ++ newPasswordPromptEffs
      if pw ≠ "" then
        match cm.updatePassword pw newPassword freshSalt freshParams with
        | some cm2 =>
          ⟨.normal, effs2 ++ [.saveFile, .printMsg "Password updated successfully"], some cm2⟩
        | none => ⟨.raised (.otherError "update password precondition"), effs2, none⟩
      else
        let cm2 := CredentialsManager.create newPassword freshSalt freshParams
        ⟨.normal, effs2 ++ [.saveFile, .printMsg "Password updated successfully"], some cm2⟩
  else
    let effs := [Eff.printMsg "There are no existing passwords to update",
                 Eff.confirmAsk "Would you like to create one?"]
    if createConfirm then
      let cm2 := CredentialsManager.create newPassword freshSalt freshParams
      ⟨.normal, effs ++ newPasswordPromptEffs ++
        [.saveFile, .printMsg "Password updated successfully"], some cm2⟩
    else ⟨.normal, effs, none⟩

/-- Embeds the `delete_credentials` command (config.py:123-152):
no-credentials early return; deletion confirmation (declining aborts); then
the three-attempt retry loop, whose success branch unlinks the file. -/
def deleteCredentialsCmd (credentialsExist : Bool) (confirmDelete : Bool)
    (attemptLoad : Nat → Except PyExc CredentialsManager)
    (entered : Nat → String) (_fileExistsNow : Bool) : CmdResult :=
  if credentialsExist then
    let effs0 := [Eff.confirmAsk "Are you sure you want to delete your credentials?"]
    if confirmDelete then
      match passwordRetryLoop attemptLoad entered "Enter your password" with
      | (.error e, effs) => ⟨.raised e, effs0 ++ effs, none⟩
      | (.ok .tooMany, effs) => ⟨.aborted, effs0 ++ effs, none⟩
      | (.ok (.success _ _), effs) =>
        ⟨.normal, effs0 ++ effs ++
          [.unlinkFile, .printMsg "Credentials deleted successfully"], none⟩
    else ⟨.aborted, effs0, none⟩
  else ⟨.normal, [.printMsg "There are no credentials to delete"], none⟩

/-- Module-level state of `config.py`, fixed at import: `CREDENTIALS_EXIST`
(config.py:20) and the derived `PSWD_PROMPT` (config.py:22-28). -/
structure ModuleState where
  credentialsExist : Bool
  pswdPrompt : String
deriving DecidableEq, Repr

/-- Embeds the module import of `config.py`: `CREDENTIALS_EXIST` is computed
once from `CREDENTIALS_FILE.exists()` and `PSWD_PROMPT` is chosen from it;
neither is ever recomputed afterwards. -/
def importConfigModule (fileExistsAtImport : Bool) : ModuleState :=
  ⟨fileExistsAtImport,
    if fileExistsAtImport then "Confirm your password"
    else "Please setup a password so your credentials can be encrypted\nPassword"⟩

/-- Recognizes a `typer.confirm` effect. -/
def isConfirmAsk : Eff → Bool
  | .confirmAsk _ => true
  | _ => false

/-- Recognizes a current-password prompt of a retry loop. -/
def isPasswordPrompt : Eff → Bool
  | .promptPassword _ => true
  | _ => false

/-- Number of current-password prompts in an effect trace. -/
def promptCount (effs : List Eff) : Nat :=
  effs.countP isPasswordPrompt

/-! ## Codec lemmas -/

/-- Decoding `n` codepoints undoes encoding a string of `n` characters. -/
theorem decodeChars_encode (cs : List Char) (rest : Bytes) :
    decodeChars cs.length (cs.map Char.toNat ++ rest) = some (cs, rest) := by
  induction cs generalizing rest with
  | nil => rfl
  | cons c cs ih =>
    have hv : Nat.isValidChar c.toNat := c.valid
    simp only [List.length_cons, List.map_cons, List.cons_append, decodeChars]
    rw [if_pos hv]
    simp only [List.append_eq]
    rw [ih]
    simp [Char.ofNat_toNat]

/-- Decoding one entry undoes `encodeString`. -/
theorem decodeEntry_encodeString (s : String) (rest : Bytes) :
    decodeEntry (encodeString s ++ rest) = some (s, rest) := by
  simp only [encodeString, List.cons_append, decodeEntry]
  rw [decodeChars_encode]
  rfl

/-- Decoding `n` pairs undoes encoding an `n`-entry mapping. -/
theorem decodePairs_encode (m : List (String × String)) :
    decodePairs m.length (m.map fun p => encodeString p.1 ++ encodeString p.2).flatten
      = some m := by
  induction m with
  | nil => rfl
  | cons kv m ih =>
    obtain ⟨k, v⟩ := kv
    simp only [List.length_cons, List.map_cons, List.flatten_cons, List.append_assoc]
    simp [decodePairs, decodeEntry_encodeString, ih]

/-- `decode` is a left inverse of `encode` on every mapping. -/
theorem decode_encode (m : List (String × String)) : decode (encode m) = some m := by
  simp [encode, decode, decodePairs_encode]

/-! ## Core lemmas -/

/-- Successful authenticated decryption pins down the sealing key, the nonce
and the payload. -/
theorem openSealed_eq_some (k : Key) (n : Nonce) (s : Sealed) (pt : Bytes)
    (h : Cipher.openSealed k n s = some pt) :
    s.sealKey = k ∧ s.sealNonce = n ∧ s.payload = pt := by
  unfold Cipher.openSealed at h
  by_cases hc : s.sealKey = k ∧ s.sealNonce = n
  · rw [if_pos hc] at h
    exact ⟨hc.1, hc.2, Option.some.inj h⟩
  · rw [if_neg hc] at h
    exact absurd h (by simp)

/-- Evaluation of `load` on a structurally intact stored envelope. -/
theorem load_stored (e : Envelope) (pw : String) :
    CredentialsManager.load (.stored e) pw =
      if e.version = currentVersion then
        match Cipher.openSealed (derive pw e.salt e.params) e.nonce e.sealedData with
        | none => .error .incorrectPassword
        | some bytes =>
          match decode bytes with
          | none => .error .corrupted
          | some m => .ok ⟨m, e.salt, e.params, derive pw e.salt e.params⟩
      else .error .corrupted := by
  unfold CredentialsManager.load FileFormat.readFile
  by_cases hv : e.version = currentVersion <;> simp [hv]

/-- `load` on garbage bytes reports corruption. -/
theorem load_garbage (pw : String) :
    CredentialsManager.load .garbage pw = .error .corrupted := rfl

/-- Loading a saved manager succeeds exactly when the supplied password
derives the manager's key, and then returns the saved mapping. -/
theorem load_save (cm : CredentialsManager) (n : Nonce) (pw : String) :
    CredentialsManager.load (.stored (cm.save n)) pw =
      if cm.key = derive pw cm.salt cm.params then
        .ok ⟨cm.mapping, cm.salt, cm.params, derive pw cm.salt cm.params⟩
      else .error .incorrectPassword := by
  rw [load_stored]
  simp only [CredentialsManager.save]
  rw [if_pos trivial]
  by_cases hk : cm.key = derive pw cm.salt cm.params
  · have hopen : Cipher.openSealed (derive pw cm.salt cm.params) n
        (Cipher.sealData cm.key n (encode cm.mapping)) = some (encode cm.mapping) := by
      unfold Cipher.openSealed Cipher.sealData
      rw [if_pos ⟨hk, rfl⟩]
    rw [hopen, if_pos hk]
    simp [decode_encode]
  · have hopen : Cipher.openSealed (derive pw cm.salt cm.params) n
        (Cipher.sealData cm.key n (encode cm.mapping)) = none := by
      unfold Cipher.openSealed Cipher.sealData
      rw [if_neg]
      rintro ⟨h1, _⟩
      exact hk h1
    rw [hopen, if_neg hk]

/-! ## Claim theorems -/

/-- C4: for every credential mapping M (including the empty mapping,
empty-string keys or values and non-ASCII text) and every password P,
encoding M, sealing it under the key derived from P, opening the result and
decoding recovers exactly M; in particular `decode (encode M) = some M`. -/
theorem pipeline_roundtrip (M : List (String × String)) (P : String)
    (salt : Salt) (params : KdfParams) (nonce : Nonce) :
    Cipher.openSealed (derive P salt params) nonce
        (Cipher.sealData (derive P salt params) nonce (encode M)) = some (encode M)
    ∧ decode (encode M) = some M := by
  exact ⟨by simp [Cipher.openSealed, Cipher.sealData], decode_encode M⟩

/-- C2: on an unmodified stored file, if `load` succeeds under password `P`
then `load` under any `P2 ≠ P` fails with `IncorrectPassword`, never
`Corrupted`; and failure of authenticated decryption (`Cipher.open`
returning its authentication-failure outcome) is the only signal `load`
maps to `incorrectPassword`. -/
theorem load_wrong_password (fd : FileData) (P P2 : String)
    (m : CredentialsManager) (hne : P2 ≠ P)
    (hok : CredentialsManager.load fd P = .ok m) :
    CredentialsManager.load fd P2 = .error .incorrectPassword
    ∧ ∀ pw, CredentialsManager.load fd pw = .error .incorrectPassword →
        ∃ env, FileFormat.readFile fd = .ok env ∧
          Cipher.openSealed (derive pw env.salt env.params) env.nonce env.sealedData
            = none := by
  cases fd with
  | garbage => exact absurd hok (by simp [load_garbage])
  | stored e =>
    by_cases hv : e.version = currentVersion
    · have hread : FileFormat.readFile (.stored e) = .ok e := by
        simp [FileFormat.readFile, hv]
      rw [load_stored, if_pos hv] at hok
      rcases hopen : Cipher.openSealed (derive P e.salt e.params) e.nonce e.sealedData
        with _ | bytes
      · rw [hopen] at hok
        exact absurd hok (by simp)
      · have hcond := openSealed_eq_some _ _ _ _ hopen
        refine ⟨?_, ?_⟩
        · rw [load_stored, if_pos hv]
          have hopen2 : Cipher.openSealed (derive P2 e.salt e.params) e.nonce e.sealedData
              = none := by
            unfold Cipher.openSealed
            rw [if_neg]
            rintro ⟨h1, _⟩
            rw [hcond.1] at h1
            exact hne (congrArg Key.password h1).symm
          rw [hopen2]
        · intro pw hpw
          rw [load_stored, if_pos hv] at hpw
          rcases hopw : Cipher.openSealed (derive pw e.salt e.params) e.nonce e.sealedData
            with _ | bytes2
          · exact ⟨e, hread, hopw⟩
          · rw [hopw] at hpw
            rcases hdec : decode bytes2 with _ | m2 <;> simp [hdec] at hpw
    · rw [load_stored, if_neg hv] at hok
      exact absurd hok (by simp)

/-- C2 witness: a concrete store created under password "a" loads under "a"
and fails with `incorrectPassword` under "b". -/
theorem load_wrong_password_witness :
    ("b" : String) ≠ "a"
    ∧ CredentialsManager.load
        (.stored ((CredentialsManager.create "a" [1] ⟨0, 1, 2⟩).save [7])) "a"
        = .ok ⟨[], [1], ⟨0, 1, 2⟩, derive "a" [1] ⟨0, 1, 2⟩⟩
    ∧ CredentialsManager.load
        (.stored ((CredentialsManager.create "a" [1] ⟨0, 1, 2⟩).save [7])) "b"
        = .error .incorrectPassword :=
  ⟨by decide, rfl,
    (load_wrong_password (.stored ((CredentialsManager.create "a" [1] ⟨0, 1, 2⟩).save [7]))
      "a" "b" ⟨[], [1], ⟨0, 1, 2⟩, derive "a" [1] ⟨0, 1, 2⟩⟩ (by decide) rfl).1⟩

/-- C6 counterexample: the claim quantifies over every pair of passwords,
including `old = new`; with `old = new = "p"` the rotation succeeds but the
subsequent `load` under the old password succeeds instead of failing with
`IncorrectPassword`. -/
theorem update_password_same_counterexample :
    (CredentialsManager.create "p" [0] ⟨0, 0, 0⟩).updatePassword "p" "p" [1] ⟨0, 0, 1⟩
      = some ⟨[], [1], ⟨0, 0, 1⟩, derive "p" [1] ⟨0, 0, 1⟩⟩
    ∧ CredentialsManager.load
        (.stored (CredentialsManager.save ⟨[], [1], ⟨0, 0, 1⟩, derive "p" [1] ⟨0, 0, 1⟩⟩ [9])) "p"
      = .ok ⟨[], [1], ⟨0, 0, 1⟩, derive "p" [1] ⟨0, 0, 1⟩⟩ :=
  ⟨rfl, rfl⟩

/-- C6 (amended): for every unlocked manager and `new ≠ old`, after
`update_password(old, new)` followed by `save`, `load` under `old` fails
with `IncorrectPassword` while `load` under `new` succeeds and returns the
mapping the manager held before the password change. -/
theorem update_password_rotates (cm : CredentialsManager) (old new : String)
    (hne : new ≠ old) (s2 : Salt) (p2 : KdfParams) (n2 : Nonce)
    (cm2 : CredentialsManager)
    (hup : cm.updatePassword old new s2 p2 = some cm2) :
    CredentialsManager.load (.stored (cm2.save n2)) old = .error .incorrectPassword
    ∧ CredentialsManager.load (.stored (cm2.save n2)) new
        = .ok ⟨cm.mapping, s2, p2, derive new s2 p2⟩ := by
  have hcond : derive old cm.salt cm.params = cm.key := by
    by_contra hc
    unfold CredentialsManager.updatePassword at hup
    rw [if_neg hc] at hup
    exact Option.noConfusion hup
  have hcm2 : cm2 = { cm with salt := s2, params := p2, key := derive new s2 p2 } := by
    unfold CredentialsManager.updatePassword at hup
    rw [if_pos hcond] at hup
    exact (Option.some.inj hup).symm
  subst hcm2
  constructor
  · rw [load_save]
    rw [if_neg (by
      intro h1
      have h2 : new = old := congrArg Key.password h1
      exact hne h2)]
  · rw [load_save, if_pos rfl]

/-- C6 witness: a concrete rotation from password "a" to "b". -/
theorem update_password_rotates_witness :
    ("b" : String) ≠ "a"
    ∧ (CredentialsManager.create "a" [0] ⟨0, 0, 0⟩).updatePassword "a" "b" [1] ⟨0, 0, 1⟩
        = some ⟨[], [1], ⟨0, 0, 1⟩, derive "b" [1] ⟨0, 0, 1⟩⟩
    ∧ (CredentialsManager.load
        (.stored (CredentialsManager.save ⟨[], [1], ⟨0, 0, 1⟩, derive "b" [1] ⟨0, 0, 1⟩⟩ [9])) "a"
          = .error .incorrectPassword
      ∧ CredentialsManager.load
        (.stored (CredentialsManager.save ⟨[], [1], ⟨0, 0, 1⟩, derive "b" [1] ⟨0, 0, 1⟩⟩ [9])) "b"
          = .ok ⟨[], [1], ⟨0, 0, 1⟩, derive "b" [1] ⟨0, 0, 1⟩⟩) :=
  ⟨by decide, rfl,
    update_password_rotates (CredentialsManager.create "a" [0] ⟨0, 0, 0⟩) "a" "b"
      (by decide) [1] ⟨0, 0, 1⟩ [9] _ rfl⟩

/-- C1 counterexample: on a corruption failure (`ValueError`) the shell's
`get_exisiting_cm` deletes the credentials file with no confirmation: its
effect trace contains the `unlink` and not a single confirmation question,
refuting the claim that the user is asked before every deletion. -/
theorem corruption_deletes_without_confirmation :
    Eff.unlinkFile ∈ (getExisitingCm (.error (.valueError "Expecting value"))).2
    ∧ (getExisitingCm (.error (.valueError "Expecting value"))).2.countP isConfirmAsk
        = 0 := by
  decide

/-- C1 (amended): when `CredentialsManager.load` fails with the corruption
branch (`TypeError`/`ValueError`), the shell deletes the stored credentials
file automatically: `get_exisiting_cm` prints the corruption notice, invokes
`unlink` with no confirmation question anywhere in the run, prints
recreation instructions, and returns None. -/
theorem corruption_branch_auto_deletes (r : Except PyExc CredentialsManager)
    (msg : String)
    (h : r = .error (.typeError msg) ∨ r = .error (.valueError msg)) :
    getExisitingCm r = (.ok none, corruptionEffects msg)
    ∧ Eff.unlinkFile ∈ corruptionEffects msg
    ∧ (corruptionEffects msg).countP isConfirmAsk = 0 := by
  rcases h with h | h <;> subst h <;>
    exact ⟨rfl, by simp [corruptionEffects],
      by simp [corruptionEffects, isConfirmAsk, List.countP_cons, List.countP_nil]⟩

/-- C1 witness: the amended claim at a concrete `ValueError`. -/
theorem corruption_branch_auto_deletes_witness :
    ((Except.error (.valueError "bad") : Except PyExc CredentialsManager)
        = .error (.typeError "bad")
      ∨ (Except.error (.valueError "bad") : Except PyExc CredentialsManager)
        = .error (.valueError "bad"))
    ∧ (getExisitingCm (.error (.valueError "bad")) = (.ok none, corruptionEffects "bad")
      ∧ Eff.unlinkFile ∈ corruptionEffects "bad"
      ∧ (corruptionEffects "bad").countP isConfirmAsk = 0) :=
  ⟨Or.inr rfl, corruption_branch_auto_deletes _ "bad" (Or.inr rfl)⟩

/-- C3: when `load` raises `IncorrectPasswordError`, the shell leaves the
filesystem unchanged — `get_exisiting_cm` prints the message, performs no
`unlink`, and returns None — and the `credentials` command then returns
normally without ever calling `save`, so a retry against the untouched file
is possible. -/
theorem incorrect_password_leaves_store (msg oai gh pw : String)
    (s : Salt) (p : KdfParams) :
    getExisitingCm (.error (.incorrectPasswordError msg))
      = (.ok none, [.loadFile, .printMsg msg])
    ∧ Eff.unlinkFile ∉ (getExisitingCm (.error (.incorrectPasswordError msg))).2
    ∧ (credentialsCmd true (.error (.incorrectPasswordError msg)) oai gh pw s p).exitKind
        = .normal
    ∧ (credentialsCmd true (.error (.incorrectPasswordError msg)) oai gh pw s p).saved
        = none
    ∧ Eff.saveFile ∉ (credentialsCmd true (.error (.incorrectPasswordError msg)) oai gh pw s p).effects
    ∧ Eff.unlinkFile ∉ (credentialsCmd true (.error (.incorrectPasswordError msg)) oai gh pw s p).effects := by
  refine ⟨rfl, by simp [getExisitingCm], ?_, ?_, ?_, ?_⟩ <;>
    simp [credentialsCmd, getExisitingCm]

/-- C5: save follows the temp-file, full-write, flush, atomic-rename
discipline: after any prefix of its steps the target path holds either the
previous content or the new complete envelope — never a partial file — and
after all steps it holds the new complete envelope. -/
theorem save_atomic (e : Envelope) (fs : Fs) (k : Nat) :
    ((runSteps fs ((saveSteps e).take k)).target = fs.target
      ∨ (runSteps fs ((saveSteps e).take k)).target = some (.stored e))
    ∧ (runSteps fs (saveSteps e)).target = some (.stored e) := by
  refine ⟨?_, rfl⟩
  match k with
  | 0 => exact Or.inl rfl
  | 1 => exact Or.inl rfl
  | 2 => exact Or.inl rfl
  | 3 => exact Or.inl rfl
  | 4 => exact Or.inl rfl
  | n + 5 =>
    have htake : (saveSteps e).take (n + 5) = saveSteps e := by
      simp [saveSteps]
    rw [htake]
    exact Or.inr rfl

/-- C10: `get_exisiting_cm` handles exactly three exception types from
`load` — `TypeError` and `ValueError` (corruption, triggering deletion) and
`IncorrectPasswordError` (wrong password) — returning None in those failure
cases; success returns the manager, and any other exception, such as one
for a missing file, propagates out unhandled. -/
theorem get_exisiting_cm_handlers (msg : String) (cm : CredentialsManager) :
    getExisitingCm (.ok cm) = (.ok (some cm), [.loadFile])
    ∧ getExisitingCm (.error (.typeError msg)) = (.ok none, corruptionEffects msg)
    ∧ getExisitingCm (.error (.valueError msg)) = (.ok none, corruptionEffects msg)
    ∧ Eff.unlinkFile ∈ corruptionEffects msg
    ∧ getExisitingCm (.error (.incorrectPasswordError msg))
        = (.ok none, [.loadFile, .printMsg msg])
    ∧ getExisitingCm (.error (.otherError msg)) = (.error (.otherError msg), [.loadFile]) :=
  ⟨rfl, rfl, rfl, by simp [corruptionEffects], rfl, rfl⟩

/-! ## Retry-loop lemmas -/

/-- The effects of `get_exisiting_cm` never include a password prompt. -/
theorem getExisitingCm_no_prompts (r : Except PyExc CredentialsManager) :
    promptCount (getExisitingCm r).2 = 0 := by
  rcases r with e | cm
  · rcases e with m | m | m | m <;>
      simp [getExisitingCm, corruptionEffects, promptCount, isPasswordPrompt,
        List.countP_cons, List.countP_nil]
  · rfl

/-- Every branch of `get_exisiting_cm` records its `load` call. -/
theorem getExisitingCm_has_load (r : Except PyExc CredentialsManager) :
    Eff.loadFile ∈ (getExisitingCm r).2 := by
  rcases r with e | cm
  · rcases e with m | m | m | m <;> simp [getExisitingCm, corruptionEffects]
  · simp [getExisitingCm]

/-- One retry iteration when validation succeeds: the loop breaks with the
manager and the entered password, having prompted once. -/
theorem retryAttempt_success (al : Nat → Except PyExc CredentialsManager)
    (en : Nat → String) (base : String) (i : Nat)
    (k : Except PyExc LoopOutcome × List Eff) (cm : CredentialsManager)
    (h : (getExisitingCm (al i)).1 = .ok (some cm)) :
    retryAttempt al en base i k
      = (.ok (.success cm (en i)),
          Eff.promptPassword (promptText base i) :: (getExisitingCm (al i)).2) := by
  unfold retryAttempt
  rw [h]

/-- One retry iteration when validation fails: the loop continues. -/
theorem retryAttempt_fail (al : Nat → Except PyExc CredentialsManager)
    (en : Nat → String) (base : String) (i : Nat)
    (k : Except PyExc LoopOutcome × List Eff)
    (h : (getExisitingCm (al i)).1 = .ok none) :
    retryAttempt al en base i k
      = (k.1, (Eff.promptPassword (promptText base i) :: (getExisitingCm (al i)).2) ++ k.2) := by
  unfold retryAttempt
  rw [h]

/-- One retry iteration when `get_exisiting_cm` lets an exception through:
it propagates out of the loop. -/
theorem retryAttempt_error (al : Nat → Except PyExc CredentialsManager)
    (en : Nat → String) (base : String) (i : Nat)
    (k : Except PyExc LoopOutcome × List Eff) (e : PyExc)
    (h : (getExisitingCm (al i)).1 = .error e) :
    retryAttempt al en base i k
      = (.error e, Eff.promptPassword (promptText base i) :: (getExisitingCm (al i)).2) := by
  unfold retryAttempt
  rw [h]

/-- Appending effect traces adds their password-prompt counts. -/
theorem promptCount_append (l1 l2 : List Eff) :
    promptCount (l1 ++ l2) = promptCount l1 + promptCount l2 := by
  simp [promptCount, List.countP_append]

/-- A password prompt at the head adds one to the prompt count. -/
theorem promptCount_cons_prompt (t : String) (l : List Eff) :
    promptCount (Eff.promptPassword t :: l) = promptCount l + 1 := by
  simp [promptCount, List.countP_cons, isPasswordPrompt]

/-- One retry iteration adds at most one password prompt. -/
theorem retryAttempt_promptCount_le (al : Nat → Except PyExc CredentialsManager)
    (en : Nat → String) (base : String) (i : Nat)
    (k : Except PyExc LoopOutcome × List Eff) :
    promptCount (retryAttempt al en base i k).2 ≤ promptCount k.2 + 1 := by
  have hg : promptCount (getExisitingCm (al i)).2 = 0 := getExisitingCm_no_prompts (al i)
  rcases h : (getExisitingCm (al i)).1 with e | o
  · simp only [retryAttempt_error al en base i k e h]
    rw [promptCount_cons_prompt, hg]
    omega
  · rcases o with _ | cm
    · simp only [retryAttempt_fail al en base i k h]
      rw [promptCount_append, promptCount_cons_prompt, hg]
      omega
    · simp only [retryAttempt_success al en base i k cm h]
      rw [promptCount_cons_prompt, hg]
      omega

/-- The retry loop prompts at most three times. -/
theorem retryLoop_promptCount_le (al : Nat → Except PyExc CredentialsManager)
    (en : Nat → String) (base : String) :
    promptCount (passwordRetryLoop al en base).2 ≤ 3 := by
  unfold passwordRetryLoop
  have h2 := retryAttempt_promptCount_le al en base 2
    (.ok .tooMany, [.printMsg "Too many incorrect attempts."])
  have h1 := retryAttempt_promptCount_le al en base 1
    (retryAttempt al en base 2 (.ok .tooMany, [.printMsg "Too many incorrect attempts."]))
  have h0 := retryAttempt_promptCount_le al en base 0
    (retryAttempt al en base 1
      (retryAttempt al en base 2 (.ok .tooMany, [.printMsg "Too many incorrect attempts."])))
  have hbase : promptCount
      ((Except.ok LoopOutcome.tooMany, [Eff.printMsg "Too many incorrect attempts."]) :
        Except PyExc LoopOutcome × List Eff).2 = 0 := rfl
  omega

/-- Every run of the retry loop records a `load` call. -/
theorem retryLoop_has_load (al : Nat → Except PyExc CredentialsManager)
    (en : Nat → String) (base : String) :
    Eff.loadFile ∈ (passwordRetryLoop al en base).2 := by
  unfold passwordRetryLoop
  have hmem := getExisitingCm_has_load (al 0)
  rcases h : (getExisitingCm (al 0)).1 with e | o
  · rw [retryAttempt_error al en base 0 _ e h]
    exact List.mem_cons_of_mem _ hmem
  · rcases o with _ | cm
    · rw [retryAttempt_fail al en base 0 _ h]
      exact List.mem_append_left _ (List.mem_cons_of_mem _ hmem)
    · rw [retryAttempt_success al en base 0 _ cm h]
      exact List.mem_cons_of_mem _ hmem

/-- Loop evaluation when the first attempt validates. -/
theorem retryLoop_success0 (al : Nat → Except PyExc CredentialsManager)
    (en : Nat → String) (base : String) (cm : CredentialsManager)
    (h0 : (getExisitingCm (al 0)).1 = .ok (some cm)) :
    passwordRetryLoop al en base
      = (.ok (.success cm (en 0)),
          Eff.promptPassword (promptText base 0) :: (getExisitingCm (al 0)).2) := by
  unfold passwordRetryLoop
  rw [retryAttempt_success al en base 0 _ cm h0]

/-- Loop evaluation when the first attempt fails and the second validates. -/
theorem retryLoop_success1 (al : Nat → Except PyExc CredentialsManager)
    (en : Nat → String) (base : String) (cm : CredentialsManager)
    (h0 : (getExisitingCm (al 0)).1 = .ok none)
    (h1 : (getExisitingCm (al 1)).1 = .ok (some cm)) :
    passwordRetryLoop al en base
      = (.ok (.success cm (en 1)),
          (Eff.promptPassword (promptText base 0) :: (getExisitingCm (al 0)).2)
            ++ (Eff.promptPassword (promptText base 1) :: (getExisitingCm (al 1)).2)) := by
  unfold passwordRetryLoop
  rw [retryAttempt_success al en base 1 _ cm h1, retryAttempt_fail al en base 0 _ h0]

/-- Loop evaluation when the first two attempts fail and the third
validates. -/
theorem retryLoop_success2 (al : Nat → Except PyExc CredentialsManager)
    (en : Nat → String) (base : String) (cm : CredentialsManager)
    (h0 : (getExisitingCm (al 0)).1 = .ok none)
    (h1 : (getExisitingCm (al 1)).1 = .ok none)
    (h2 : (getExisitingCm (al 2)).1 = .ok (some cm)) :
    passwordRetryLoop al en base
      = (.ok (.success cm (en 2)),
          (Eff.promptPassword (promptText base 0) :: (getExisitingCm (al 0)).2)
            ++ ((Eff.promptPassword (promptText base 1) :: (getExisitingCm (al 1)).2)
              ++ (Eff.promptPassword (promptText base 2) :: (getExisitingCm (al 2)).2))) := by
  unfold passwordRetryLoop
  rw [retryAttempt_success al en base 2 _ cm h2, retryAttempt_fail al en base 1 _ h1,
    retryAttempt_fail al en base 0 _ h0]

/-- Loop evaluation when all three attempts fail: the `else` clause runs. -/
theorem retryLoop_all_fail (al : Nat → Except PyExc CredentialsManager)
    (en : Nat → String) (base : String)
    (h0 : (getExisitingCm (al 0)).1 = .ok none)
    (h1 : (getExisitingCm (al 1)).1 = .ok none)
    (h2 : (getExisitingCm (al 2)).1 = .ok none) :
    passwordRetryLoop al en base
      = (.ok .tooMany,
          (Eff.promptPassword (promptText base 0) :: (getExisitingCm (al 0)).2)
            ++ ((Eff.promptPassword (promptText base 1) :: (getExisitingCm (al 1)).2)
              ++ ((Eff.promptPassword (promptText base 2) :: (getExisitingCm (al 2)).2)
                ++ [.printMsg "Too many incorrect attempts."]))) := by
  unfold passwordRetryLoop
  rw [retryAttempt_fail al en base 2 _ h2, retryAttempt_fail al en base 1 _ h1,
    retryAttempt_fail al en base 0 _ h0]

/-- The `update_password` command's password-prompt count equals its retry
loop's. -/
theorem updatePasswordCmd_promptCount (al : Nat → Except PyExc CredentialsManager)
    (en : Nat → String) (cc : Bool) (np : String) (s : Salt) (p : KdfParams)
    (now : Bool) :
    promptCount (updatePasswordCmd true al en cc np s p now).effects
      = promptCount (passwordRetryLoop al en "Enter current password").2 := by
  rcases hL : passwordRetryLoop al en "Enter current password" with ⟨res, effs⟩
  unfold updatePasswordCmd
  rw [hL]
  rcases res with e | o
  · rfl
  · rcases o with ⟨cm, pw⟩ | _
    · by_cases hpw : pw = ""
      · subst hpw
        simp [newPasswordPromptEffs, promptCount, List.countP_cons,
          List.countP_nil, List.countP_append, isPasswordPrompt]
      · rcases hup : cm.updatePassword pw np s p with _ | cm2 <;>
          simp [hup, hpw, newPasswordPromptEffs, promptCount, List.countP_cons,
            List.countP_nil, List.countP_append, isPasswordPrompt]
    · rfl

/-- The `delete_credentials` command's password-prompt count equals its
retry loop's (the deletion confirmation is not a password prompt). -/
theorem deleteCredentialsCmd_promptCount (al : Nat → Except PyExc CredentialsManager)
    (en : Nat → String) (now : Bool) :
    promptCount (deleteCredentialsCmd true true al en now).effects
      = promptCount (passwordRetryLoop al en "Enter your password").2 := by
  rcases hL : passwordRetryLoop al en "Enter your password" with ⟨res, effs⟩
  unfold deleteCredentialsCmd
  rw [hL]
  rcases res with e | o
  · simp [promptCount, List.countP_append, List.countP_cons, List.countP_nil,
      isPasswordPrompt]
  · rcases o with ⟨cm, pw⟩ | _ <;>
      simp [promptCount, List.countP_append, List.countP_cons, List.countP_nil,
        isPasswordPrompt]

/-- A lone print carries no password prompt. -/
theorem promptCount_printMsg (t : String) :
    promptCount [Eff.printMsg t] = 0 := by
  simp [promptCount, List.countP_cons, List.countP_nil, isPasswordPrompt]

/-- The effects of `update_password` (file-exists branch) start with the
retry loop's effects. -/
theorem updatePasswordCmd_effects_prefix (al : Nat → Except PyExc CredentialsManager)
    (en : Nat → String) (cc : Bool) (np : String) (s : Salt) (p : KdfParams)
    (now : Bool) :
    ∃ tail, (updatePasswordCmd true al en cc np s p now).effects
      = (passwordRetryLoop al en "Enter current password").2 ++ tail := by
  rcases hL : passwordRetryLoop al en "Enter current password" with ⟨res, effs⟩
  unfold updatePasswordCmd
  rw [hL]
  rcases res with e | o
  · exact ⟨[], by simp⟩
  · rcases o with ⟨cm, pw⟩ | _
    · by_cases hpw : pw = ""
      · subst hpw
        exact ⟨newPasswordPromptEffs
            ++ [.saveFile, .printMsg "Password updated successfully"], by simp⟩
      · rcases hup : cm.updatePassword pw np s p with _ | cm2
        · exact ⟨newPasswordPromptEffs, by simp [hup, hpw]⟩
        · exact ⟨newPasswordPromptEffs
            ++ [.saveFile, .printMsg "Password updated successfully"], by simp [hup, hpw]⟩
    · exact ⟨[], by simp⟩

/-- The effects of `delete_credentials` (file exists, deletion confirmed)
are the confirmation question followed by the retry loop's effects. -/
theorem deleteCredentialsCmd_effects_prefix (al : Nat → Except PyExc CredentialsManager)
    (en : Nat → String) (now : Bool) :
    ∃ tail, (deleteCredentialsCmd true true al en now).effects
      = Eff.confirmAsk "Are you sure you want to delete your credentials?"
          :: ((passwordRetryLoop al en "Enter your password").2 ++ tail) := by
  rcases hL : passwordRetryLoop al en "Enter your password" with ⟨res, effs⟩
  unfold deleteCredentialsCmd
  rw [hL]
  rcases res with e | o
  · exact ⟨[], by simp⟩
  · rcases o with ⟨cm, pw⟩ | _
    · exact ⟨[.unlinkFile, .printMsg "Credentials deleted successfully"], by simp⟩
    · exact ⟨[], by simp⟩

/-- Every run of `update_password`'s file-exists branch calls `load`. -/
theorem updatePasswordCmd_has_load (al : Nat → Except PyExc CredentialsManager)
    (en : Nat → String) (cc : Bool) (np : String) (s : Salt) (p : KdfParams)
    (now : Bool) :
    Eff.loadFile ∈ (updatePasswordCmd true al en cc np s p now).effects := by
  obtain ⟨tail, htail⟩ := updatePasswordCmd_effects_prefix al en cc np s p now
  rw [htail]
  exact List.mem_append_left _ (retryLoop_has_load al en _)

/-- Every run of `delete_credentials` (file exists, confirmed) calls
`load`. -/
theorem deleteCredentialsCmd_has_load (al : Nat → Except PyExc CredentialsManager)
    (en : Nat → String) (now : Bool) :
    Eff.loadFile ∈ (deleteCredentialsCmd true true al en now).effects := by
  obtain ⟨tail, htail⟩ := deleteCredentialsCmd_effects_prefix al en now
  rw [htail]
  exact List.mem_cons_of_mem _ (List.mem_append_left _ (retryLoop_has_load al en _))

/-- Every run of `credentials` in the file-exists branch calls `load`. -/
theorem credentialsCmd_has_load (lr : Except PyExc CredentialsManager)
    (oai gh pw : String) (s : Salt) (p : KdfParams) :
    Eff.loadFile ∈ (credentialsCmd true lr oai gh pw s p).effects := by
  have hmem := getExisitingCm_has_load lr
  rcases hG : getExisitingCm lr with ⟨res, effs⟩
  rw [hG] at hmem
  unfold credentialsCmd
  rw [hG]
  rcases res with e | o
  · exact hmem
  · rcases o with _ | cm
    · exact hmem
    · exact List.mem_append_left _ hmem

/-- On loop exhaustion `update_password` aborts with the loop's effects. -/
theorem updatePasswordCmd_exit_tooMany (al : Nat → Except PyExc CredentialsManager)
    (en : Nat → String) (cc : Bool) (np : String) (s : Salt) (p : KdfParams)
    (now : Bool) (effs : List Eff)
    (h : passwordRetryLoop al en "Enter current password" = (.ok .tooMany, effs)) :
    (updatePasswordCmd true al en cc np s p now).exitKind = .aborted
    ∧ (updatePasswordCmd true al en cc np s p now).effects = effs := by
  unfold updatePasswordCmd
  rw [h]
  exact ⟨rfl, rfl⟩

/-- On loop exhaustion `delete_credentials` aborts with the confirmation
question and the loop's effects. -/
theorem deleteCredentialsCmd_exit_tooMany (al : Nat → Except PyExc CredentialsManager)
    (en : Nat → String) (now : Bool) (effs : List Eff)
    (h : passwordRetryLoop al en "Enter your password" = (.ok .tooMany, effs)) :
    (deleteCredentialsCmd true true al en now).exitKind = .aborted
    ∧ (deleteCredentialsCmd true true al en now).effects
        = Eff.confirmAsk "Are you sure you want to delete your credentials?" :: effs := by
  unfold deleteCredentialsCmd
  rw [h]
  exact ⟨rfl, rfl⟩

/-- C7: in the `update_password` and `delete_credentials` commands the shell
prompts for the current password at most 3 times per run; it stops at the
first password that validates (prompting j+1 times when validation first
succeeds at attempt j); and after 3 failed validation attempts it prints
"Too many incorrect attempts." and aborts instead of proceeding. -/
theorem retry_three_attempts (al : Nat → Except PyExc CredentialsManager)
    (en : Nat → String) (cc : Bool) (np : String) (s : Salt) (p : KdfParams)
    (now : Bool) :
    (promptCount (updatePasswordCmd true al en cc np s p now).effects ≤ 3
      ∧ promptCount (deleteCredentialsCmd true true al en now).effects ≤ 3)
    ∧ (∀ cm, (getExisitingCm (al 0)).1 = .ok (some cm) →
        promptCount (updatePasswordCmd true al en cc np s p now).effects = 1
        ∧ promptCount (deleteCredentialsCmd true true al en now).effects = 1)
    ∧ (∀ cm, (getExisitingCm (al 0)).1 = .ok none →
        (getExisitingCm (al 1)).1 = .ok (some cm) →
        promptCount (updatePasswordCmd true al en cc np s p now).effects = 2
        ∧ promptCount (deleteCredentialsCmd true true al en now).effects = 2)
    ∧ (∀ cm, (getExisitingCm (al 0)).1 = .ok none →
        (getExisitingCm (al 1)).1 = .ok none →
        (getExisitingCm (al 2)).1 = .ok (some cm) →
        promptCount (updatePasswordCmd true al en cc np s p now).effects = 3
        ∧ promptCount (deleteCredentialsCmd true true al en now).effects = 3)
    ∧ ((getExisitingCm (al 0)).1 = .ok none →
        (getExisitingCm (al 1)).1 = .ok none →
        (getExisitingCm (al 2)).1 = .ok none →
        (updatePasswordCmd true al en cc np s p now).exitKind = .aborted
        ∧ Eff.printMsg "Too many incorrect attempts."
            ∈ (updatePasswordCmd true al en cc np s p now).effects
        ∧ promptCount (updatePasswordCmd true al en cc np s p now).effects = 3
        ∧ (deleteCredentialsCmd true true al en now).exitKind = .aborted
        ∧ Eff.printMsg "Too many incorrect attempts."
            ∈ (deleteCredentialsCmd true true al en now).effects
        ∧ promptCount (deleteCredentialsCmd true true al en now).effects = 3) := by
  refine ⟨⟨?_, ?_⟩, ?_, ?_, ?_, ?_⟩
  · rw [updatePasswordCmd_promptCount]
    exact retryLoop_promptCount_le al en _
  · rw [deleteCredentialsCmd_promptCount]
    exact retryLoop_promptCount_le al en _
  · intro cm h0
    constructor
    · rw [updatePasswordCmd_promptCount, retryLoop_success0 al en _ cm h0,
        promptCount_cons_prompt, getExisitingCm_no_prompts]
    · rw [deleteCredentialsCmd_promptCount, retryLoop_success0 al en _ cm h0,
        promptCount_cons_prompt, getExisitingCm_no_prompts]
  · intro cm h0 h1
    constructor
    · rw [updatePasswordCmd_promptCount, retryLoop_success1 al en _ cm h0 h1,
        promptCount_append, promptCount_cons_prompt, promptCount_cons_prompt,
        getExisitingCm_no_prompts, getExisitingCm_no_prompts]
    · rw [deleteCredentialsCmd_promptCount, retryLoop_success1 al en _ cm h0 h1,
        promptCount_append, promptCount_cons_prompt, promptCount_cons_prompt,
        getExisitingCm_no_prompts, getExisitingCm_no_prompts]
  · intro cm h0 h1 h2
    constructor
    · rw [updatePasswordCmd_promptCount, retryLoop_success2 al en _ cm h0 h1 h2,
        promptCount_append, promptCount_append, promptCount_cons_prompt,
        promptCount_cons_prompt, promptCount_cons_prompt, getExisitingCm_no_prompts,
        getExisitingCm_no_prompts, getExisitingCm_no_prompts]
    · rw [deleteCredentialsCmd_promptCount, retryLoop_success2 al en _ cm h0 h1 h2,
        promptCount_append, promptCount_append, promptCount_cons_prompt,
        promptCount_cons_prompt, promptCount_cons_prompt, getExisitingCm_no_prompts,
        getExisitingCm_no_prompts, getExisitingCm_no_prompts]
  · intro h0 h1 h2
    have hloopU := retryLoop_all_fail al en "Enter current password" h0 h1 h2
    have hcmdU := updatePasswordCmd_exit_tooMany al en cc np s p now _ hloopU
    have hloopD := retryLoop_all_fail al en "Enter your password" h0 h1 h2
    have hcmdD := deleteCredentialsCmd_exit_tooMany al en now _ hloopD
    refine ⟨hcmdU.1, ?_, ?_, hcmdD.1, ?_, ?_⟩
    · rw [hcmdU.2]
      simp
    · rw [hcmdU.2, promptCount_append, promptCount_append, promptCount_append,
        promptCount_cons_prompt, promptCount_cons_prompt, promptCount_cons_prompt,
        getExisitingCm_no_prompts, getExisitingCm_no_prompts, getExisitingCm_no_prompts,
        promptCount_printMsg]
    · rw [hcmdD.2]
      simp
    · rw [hcmdD.2]
      have hc : promptCount (Eff.confirmAsk
            "Are you sure you want to delete your credentials?" :: ((Eff.promptPassword
              (promptText "Enter your password" 0) :: (getExisitingCm (al 0)).2)
            ++ ((Eff.promptPassword (promptText "Enter your password" 1) :: (getExisitingCm (al 1)).2)
              ++ ((Eff.promptPassword (promptText "Enter your password" 2) :: (getExisitingCm (al 2)).2)
                ++ [.printMsg "Too many incorrect attempts."]))))
          = promptCount ((Eff.promptPassword (promptText "Enter your password" 0)
              :: (getExisitingCm (al 0)).2)
            ++ ((Eff.promptPassword (promptText "Enter your password" 1) :: (getExisitingCm (al 1)).2)
              ++ ((Eff.promptPassword (promptText "Enter your password" 2) :: (getExisitingCm (al 2)).2)
                ++ [.printMsg "Too many incorrect attempts."]))) := by
        simp [promptCount, List.countP_cons, isPasswordPrompt]
      rw [hc, promptCount_append, promptCount_append, promptCount_append,
        promptCount_cons_prompt, promptCount_cons_prompt, promptCount_cons_prompt,
        getExisitingCm_no_prompts, getExisitingCm_no_prompts, getExisitingCm_no_prompts,
        promptCount_printMsg]

/-- C7 witness: with every attempt failing validation, both commands prompt
and then abort. -/
theorem retry_three_attempts_witness :
    (getExisitingCm ((fun _ => .error (.incorrectPasswordError "w") :
        Nat → Except PyExc CredentialsManager) 0)).1 = .ok none
    ∧ (updatePasswordCmd true (fun _ => .error (.incorrectPasswordError "w"))
        (fun _ => "x") false "n" [] ⟨0, 0, 0⟩ false).exitKind = .aborted
    ∧ (deleteCredentialsCmd true true (fun _ => .error (.incorrectPasswordError "w"))
        (fun _ => "x") false).exitKind = .aborted :=
  ⟨rfl,
    ((retry_three_attempts (fun _ => .error (.incorrectPasswordError "w")) (fun _ => "x")
        false "n" [] ⟨0, 0, 0⟩ false).2.2.2.2 rfl rfl rfl).1,
    ((retry_three_attempts (fun _ => .error (.incorrectPasswordError "w")) (fun _ => "x")
        false "n" [] ⟨0, 0, 0⟩ false).2.2.2.2 rfl rfl rfl).2.2.2.1⟩

/-- C8: in `update_password` the decision whether to rotate the loaded
manager's password tests the entered current password against the empty
string: when the stored file exists and the retry loop validates the empty
string as the current password, the command constructs a fresh
`CredentialsManager(new_password)` holding an empty mapping and saves it —
discarding every stored credential — instead of calling `update_password`
on the loaded manager. -/
theorem empty_password_discards (al : Nat → Except PyExc CredentialsManager)
    (en : Nat → String) (cm : CredentialsManager) (effs : List Eff)
    (cc : Bool) (np : String) (s : Salt) (p : KdfParams) (now : Bool)
    (h : passwordRetryLoop al en "Enter current password" = (.ok (.success cm ""), effs)) :
    (updatePasswordCmd true al en cc np s p now).saved
        = some (CredentialsManager.create np s p)
    ∧ (CredentialsManager.create np s p).mapping = []
    ∧ (updatePasswordCmd true al en cc np s p now).exitKind = .normal := by
  unfold updatePasswordCmd
  rw [h]
  exact ⟨rfl, rfl, rfl⟩

/-- C8 witness: a stored manager holding one credential, unlocked by the
empty password, is replaced by a fresh empty manager. -/
theorem empty_password_discards_witness :
    passwordRetryLoop
        (fun _ => .ok ⟨[("openai_api_key", "k")], [0], ⟨0, 0, 0⟩, derive "" [0] ⟨0, 0, 0⟩⟩)
        (fun _ => "") "Enter current password"
      = (.ok (.success ⟨[("openai_api_key", "k")], [0], ⟨0, 0, 0⟩, derive "" [0] ⟨0, 0, 0⟩⟩ ""),
          [Eff.promptPassword "Enter current password", Eff.loadFile])
    ∧ ((updatePasswordCmd true
          (fun _ => .ok ⟨[("openai_api_key", "k")], [0], ⟨0, 0, 0⟩, derive "" [0] ⟨0, 0, 0⟩⟩)
          (fun _ => "") false "npw" [1] ⟨0, 0, 1⟩ false).saved
        = some (CredentialsManager.create "npw" [1] ⟨0, 0, 1⟩)
      ∧ (CredentialsManager.create "npw" [1] ⟨0, 0, 1⟩).mapping = []
      ∧ (updatePasswordCmd true
          (fun _ => .ok ⟨[("openai_api_key", "k")], [0], ⟨0, 0, 0⟩, derive "" [0] ⟨0, 0, 0⟩⟩)
          (fun _ => "") false "npw" [1] ⟨0, 0, 1⟩ false).exitKind = .normal) :=
  ⟨rfl,
    empty_password_discards
      (fun _ => .ok ⟨[("openai_api_key", "k")], [0], ⟨0, 0, 0⟩, derive "" [0] ⟨0, 0, 0⟩⟩)
      (fun _ => "") _ _ false "npw" [1] ⟨0, 0, 1⟩ false rfl⟩

/-- C9: `CREDENTIALS_EXIST` (and the derived password prompt) is computed
once at module import from `CREDENTIALS_FILE.exists()` and never refreshed:
the commands' behavior is independent of the file's existence at command
time, and with the import-time value `true` each command still takes the
file-exists branch and calls `CredentialsManager.load`, even when the file
no longer exists. -/
theorem credentials_exist_frozen (al : Nat → Except PyExc CredentialsManager)
    (en : Nat → String) (cc : Bool) (np : String) (s : Salt) (p : KdfParams)
    (lr : Except PyExc CredentialsManager) (oai gh pw : String) (now1 now2 : Bool) :
    (importConfigModule true).credentialsExist = true
    ∧ (importConfigModule false).credentialsExist = false
    ∧ (importConfigModule true).pswdPrompt = "Confirm your password"
    ∧ updatePasswordCmd true al en cc np s p now1 = updatePasswordCmd true al en cc np s p now2
    ∧ deleteCredentialsCmd true true al en now1 = deleteCredentialsCmd true true al en now2
    ∧ Eff.loadFile ∈ (updatePasswordCmd (importConfigModule true).credentialsExist
        al en cc np s p false).effects
    ∧ Eff.loadFile ∈ (deleteCredentialsCmd (importConfigModule true).credentialsExist
        true al en false).effects
    ∧ Eff.loadFile ∈ (credentialsCmd (importConfigModule true).credentialsExist
        lr oai gh pw s p).effects :=
  ⟨rfl, rfl, rfl, rfl, rfl,
    updatePasswordCmd_has_load al en cc np s p false,
    deleteCredentialsCmd_has_load al en false,
    credentialsCmd_has_load lr oai gh pw s p⟩

end LazyPr
